import Mathlib

/-!
Verification of the docker-on-top volume driver (kolayne/docker-on-top).

We shallowly embed the driver's per-volume state machine: the on-disk volume
tree (metadata.json, upper/, workdir/, mountpoint/, activemounts/), the kernel
overlay mount counter for the volume's mountpoint, and the driver operations
Create / Remove / Mount / Unmount translated from driver.go, volumeInfo.go,
lockedFile.go and the volume-tree manager.

Fallible filesystem primitives are modelled with their state-derived errors
(e.g. Mkdir on an existing directory fails with an "exists" error) plus an
injection environment that lets a call site fail with an arbitrary error, the
way the corresponding syscall may in Go. The all-default environment is the
happy path where every syscall that can succeed does succeed.
-/

namespace DockerOnTop

/-- Model of a Go `error` value as classified by the driver's checks
(`os.IsNotExist`, `os.IsExist`, `errors.Is(err, syscall.EBUSY)`,
`errors.Is(err, io.EOF)`), plus arbitrary other errors carrying a message. -/
inductive GoError where
  | notExist
  | exist
  | busy
  | eof
  | other (msg : String)
deriving DecidableEq, Repr

/-- Rendering of a `GoError` to the message text Go would interpolate for it. -/
def GoError.render : GoError → String
  | .notExist => "file does not exist"
  | .exist => "file already exists"
  | .busy => "device or resource busy"
  | .eof => "EOF"
  | .other msg => msg

/-- `internalError` from dockerOnTop.go: wraps a message in the
"docker-on-top internal error: ..." prefix reported to the docker daemon. -/
def internalError (help : String) (err : String) : String :=
  "docker-on-top internal error: " ++ help ++ ": " ++ err

/-- VolumeInfo from volumeInfo.go: the volume's persistent metadata. -/
structure VolumeInfo where
  BaseDirPath : String
  Volatile : Bool
deriving DecidableEq, Repr

/-- The on-disk state of a single volume under the dot root directory,
together with the number of overlay mounts the kernel currently holds at the
volume's mountpoint (overlay mounts stack if mounted repeatedly). Directory
contents are abstract: `upperContents` lists the entries of upper/ (the names
are opaque), `activeMounts` lists the marker-file names in activemounts/.
`none` means the directory (or metadata file) does not exist. -/
structure VolState where
  mainDirExists : Bool
  metadata : Option VolumeInfo
  upperContents : Option (List String)
  workdirExists : Bool
  mountpointExists : Bool
  activeMounts : Option (List String)
  overlayMounts : Nat
deriving DecidableEq, Repr

/-- A kernel (un)mount call issued by the driver, with the arguments passed
to `syscall.Mount` / `syscall.Unmount`. -/
inductive KernelCall where
  | mount (source target fstype : String) (flags : Nat) (data : String)
  | unmount (target : String) (flags : Nat)
deriving DecidableEq, Repr

/-! ## Path algebra (volumeTree file and volumeInfo.go) -/

def metadatajson (root volumeName : String) : String :=
  root ++ volumeName ++ "/metadata.json"

def activemountsdir (root volumeName : String) : String :=
  root ++ volumeName ++ "/activemounts/"

def upperdir (root volumeName : String) : String :=
  root ++ volumeName ++ "/upper/"

def workdir (root volumeName : String) : String :=
  root ++ volumeName ++ "/workdir/"

def mountpointdir (root volumeName : String) : String :=
  root ++ volumeName ++ "/mountpoint/"

/-! ## Filesystem primitives

Results are `Option GoError`: `none` is success. Each primitive first fails
with the error its target's state forces, and otherwise with the injected
error of its call site, if any. -/

/-- `os.Mkdir`: fails with an "exists" error if the directory exists. -/
def mkdirResult (alreadyExists : Bool) (inj : Option GoError) : Option GoError :=
  if alreadyExists then some .exist else inj

/-- `os.Remove` of a directory: fails with "not exist" if it is absent and
with EBUSY if the kernel holds a mount on it. -/
def removeDirResult (dirExists : Bool) (mountsOnIt : Nat) (inj : Option GoError) :
    Option GoError :=
  if !dirExists then some .notExist
  else if mountsOnIt != 0 then some .busy
  else inj

/-- `os.RemoveAll`: absence of the target is success, so only an injected
error can make it fail. -/
def removeAllResult (inj : Option GoError) : Option GoError := inj

/-! ## volumeInfo.go -/

/-- `getVolumeInfo`: reads metadata.json; a missing file surfaces as a
"not exist" error from `os.ReadFile`. -/
def getVolumeInfo (s : VolState) : Except GoError VolumeInfo :=
  match s.metadata with
  | some vol => .ok vol
  | none => .error .notExist

/-! ## lockedFile.go -/

/-- `lockedFile.Open`: opens the directory (failing if it does not exist,
with the error wrapped by `internalError`) and takes the exclusive flock
(an injected flock failure is also wrapped). Returns the error message the
driver would propagate, or success. -/
def lockedFileOpen (dirExists : Bool) (flockInj : Option GoError) : Option String :=
  if !dirExists then
    some (internalError "failed to Open inside lockedFile" (GoError.render .notExist))
  else
    match flockInj with
    | some e => some (internalError "failed to get exclusive Flock" e.render)
    | none => none

/-! ## Volume-tree manager -/

/-- Error result of `volumeTreeCreate`: either the raw "exists" error
(returned unwrapped so that `Create` can recognise it via `os.IsExist`), or
an internal error message. -/
inductive TreeCreateErr where
  | exist
  | internal (msg : String)
deriving DecidableEq, Repr

structure TreeCreateEnv where
  mkdirMain : Option GoError := none
  mkdirUpper : Option GoError := none
  mkdirActivemounts : Option GoError := none
  removeAllDestroy : Option GoError := none
deriving Repr

/-- `volumeTreeDestroy`: recursively removes the volume's main directory.
Absence of the directory is success. On success every part of the volume's
tree is gone. -/
def volumeTreeDestroy (inj : Option GoError) (s : VolState) :
    VolState × Option String :=
  match removeAllResult inj with
  | some e =>
      (s, some (internalError "failed to RemoveAll volume main directory" e.render))
  | none =>
      ({ s with mainDirExists := false, metadata := none, upperContents := none,
                workdirExists := false, mountpointExists := false,
                activeMounts := none }, none)

/-- `volumeTreeCreate`: creates the main directory, then upper/, then
activemounts/. If the main directory already exists, the raw "exists" error
is returned. On an inner failure the partially created tree is destroyed
(errors of the destruction itself are ignored, as in the source:
`_ = d.volumeTreeDestroy(volumeName)`). -/
def volumeTreeCreate (env : TreeCreateEnv) (s : VolState) :
    VolState × Option TreeCreateErr :=
  match mkdirResult s.mainDirExists env.mkdirMain with
  | some .exist => (s, some .exist)
  | some e =>
      (s, some (.internal (internalError "failed to Mkdir volume main directory" e.render)))
  | none =>
    let s1 := { s with mainDirExists := true }
    match env.mkdirUpper with
    | some e =>
        ((volumeTreeDestroy env.removeAllDestroy s1).1,
         some (.internal (internalError "failed to Mkdir internal directories" e.render)))
    | none =>
      let s2 := { s1 with upperContents := some [] }
      match env.mkdirActivemounts with
      | some e =>
          ((volumeTreeDestroy env.removeAllDestroy s2).1,
           some (.internal (internalError "failed to Mkdir internal directories" e.render)))
      | none => ({ s2 with activeMounts := some [] }, none)

structure PreMountEnv where
  mkdirMountpoint : Option GoError := none
  mkdirWorkdir : Option GoError := none
  removeAllUpper : Option GoError := none
  mkdirUpperAgain : Option GoError := none
deriving Repr

/-- `volumeTreePreMount`: creates mountpoint/ and workdir/ ("exists" is only
a warning); on any other failure removes the one of the two this call did
create and fails. Then, if `discardUpper`, recursively removes upper/ and
recreates it empty. -/
def volumeTreePreMount (env : PreMountEnv) (s : VolState) (discardUpper : Bool) :
    VolState × Option String :=
  let err1 := mkdirResult s.mountpointExists env.mkdirMountpoint
  let err2 := mkdirResult s.workdirExists env.mkdirWorkdir
  let s1 := { s with mountpointExists := s.mountpointExists || (err1 == none),
                     workdirExists := s.workdirExists || (err2 == none) }
  if (err1 != none && err1 != some .exist) || (err2 != none && err2 != some .exist) then
    -- Clean up: only remove the directories that this call created just now
    let s2 := { s1 with mountpointExists := if err1 == none then false else s1.mountpointExists,
                        workdirExists := if err2 == none then false else s1.workdirExists }
    (s2, some (internalError "failed to prepare internal directories"
                 ((err1.getD (.other "")).render ++ "\n" ++ (err2.getD (.other "")).render)))
  else if discardUpper then
    match removeAllResult env.removeAllUpper with
    | some e =>
        (s1, some (internalError "failed to discard previous changes" e.render))
    | none =>
      let s2 := { s1 with upperContents := none }
      match env.mkdirUpperAgain with
      | some e =>
          (s2, some (internalError "failed to create upperdir after discarding changes" e.render))
      | none => ({ s2 with upperContents := some [] }, none)
  else
    (s1, none)

structure PostUnmountEnv where
  removeMountpoint : Option GoError := none
  removeAllWorkdir : Option GoError := none
deriving Repr

/-- `volumeTreePostUnmount`: removes mountpoint/ (non-recursively) and
workdir/ (recursively); both removals are attempted independently and their
errors, if any, are joined. -/
def volumeTreePostUnmount (env : PostUnmountEnv) (s : VolState) :
    VolState × Option String :=
  let err1 := removeDirResult s.mountpointExists s.overlayMounts env.removeMountpoint
  let err2 := removeAllResult env.removeAllWorkdir
  let s1 := { s with mountpointExists := if err1 == none then false else s.mountpointExists,
                     workdirExists := if err2 == none then false else s.workdirExists }
  if err1 == none && err2 == none then
    (s1, none)
  else
    (s1, some (internalError "failed to cleanup on unmount"
                 ((err1.getD (.other "")).render ++ "\n" ++ (err2.getD (.other "")).render)))

/-! ## Kernel mount/unmount primitives

`syscall.Mount` / `syscall.Unmount` as observed by the driver: mounting onto
a missing target fails with "not exist", unmounting a target with no mount on
it fails with EINVAL; otherwise the call site's injected error, if any. -/

def kernelMountResult (targetExists : Bool) (inj : Option GoError) : Option GoError :=
  if !targetExists then some .notExist else inj

def kernelUnmountResult (mountsOnIt : Nat) (inj : Option GoError) : Option GoError :=
  if mountsOnIt == 0 then some (.other "invalid argument") else inj

/-! ## driver.go: Create -/

/-- CreateRequest: the volume name and the options map (modelled as an
association list with unique keys). -/
structure CreateRequest where
  Name : String
  Options : List (String × String)
deriving Repr

/-- `strings.ContainsRune`, computed over the string's characters. -/
def containsRune (s : String) (c : Char) : Bool := s.data.contains c

/-- `strings.ToLower`, computed character-wise over the string. -/
def stringToLower (s : String) : String := ⟨s.data.map Char.toLower⟩

/-- The regex `^[a-zA-Z0-9][a-zA-Z0-9_.-]*$` (volNameFormat in driver.go),
as a decidable matcher: first char alphanumeric, the rest alphanumeric or
one of `_`, `.`, `-`. -/
def isVolNameStart (c : Char) : Bool := c.isAlpha || c.isDigit

def isVolNameRest (c : Char) : Bool :=
  c.isAlpha || c.isDigit || c == '_' || c == '.' || c == '-'

def volNameFormatMatch (s : String) : Bool :=
  match s.data with
  | [] => false
  | c :: cs => isVolNameStart c && cs.all isVolNameRest

/-- The distinct error values `Create` can return, one constructor per error
site in driver.go's Create (and the tree-create errors it propagates). -/
inductive CreateErr where
  | nameSlash
  | nameIllegal
  | invalidOption (opt : String)
  | baseMissing
  | baseNotAbsolute
  | baseCommaColon
  | baseNotExist
  | baseInaccessible (e : GoError)
  | volatileInvalid
  | alreadyExists
  | internal (msg : String)
deriving DecidableEq, Repr

/-- The exact user-visible message of each Create error (from driver.go). -/
def CreateErr.render : CreateErr → String
  | .nameSlash =>
      "volume name cannot contain slashes (for specifying host path use " ++
      "`-o base=/path/to/base/directory`)"
  | .nameIllegal =>
      "volume name contains illegal characters: " ++
      "it should comply to \"[a-zA-Z0-9][a-zA-Z0-9_.-]*\""
  | .invalidOption opt => "Invalid option " ++ opt
  | .baseMissing =>
      "`base` option must be provided and set to an absolute path to the base directory on host"
  | .baseNotAbsolute => "`base` must be an absolute path"
  | .baseCommaColon => "directories with commas and/or colons in the path are not supported"
  | .baseNotExist => "the base directory does not exist"
  | .baseInaccessible e => "the specified base directory is inaccessible: " ++ e.render
  | .volatileInvalid => "option `volatile` must be either 'true', 'false', 'yes', or 'no'"
  | .alreadyExists => "volume already exists"
  | .internal msg => msg

structure CreateEnv where
  baseOpen : Option GoError := none
  tree : TreeCreateEnv := {}
  writeMetadata : Option GoError := none
deriving Repr

/-- Parsing of the `volatile` option in Create: lower-cased, defaulting to
"false"; `no`/`false` and `yes`/`true` are the accepted spellings. -/
def parseVolatile (options : List (String × String)) : Option Bool :=
  let volatileS := stringToLower ((options.lookup "volatile").getD "false")
  if volatileS == "no" || volatileS == "false" then some false
  else if volatileS == "yes" || volatileS == "true" then some true
  else none

/-- `Create` from driver.go: name validation, option validation, `base`
checks, `volatile` parsing, tree creation, metadata write (with tree
destruction if the write fails). -/
def Create (env : CreateEnv) (s : VolState) (request : CreateRequest) :
    VolState × Option CreateErr :=
  if !volNameFormatMatch request.Name then
    (s, some (if containsRune request.Name '/' then .nameSlash else .nameIllegal))
  else
    match request.Options.find? (fun opt => !(opt.1 == "base" || opt.1 == "volatile")) with
    | some opt => (s, some (.invalidOption opt.1))
    | none =>
      match request.Options.lookup "base" with
      | none => (s, some .baseMissing)
      | some baseDir =>
        if baseDir.length < 1 || baseDir.front != '/' then
          (s, some .baseNotAbsolute)
        else if containsRune baseDir ',' || containsRune baseDir ':' then
          (s, some .baseCommaColon)
        else
          match env.baseOpen with
          | some .notExist => (s, some .baseNotExist)
          | some e => (s, some (.baseInaccessible e))
          | none =>
            match parseVolatile request.Options with
            | none => (s, some .volatileInvalid)
            | some volatile =>
              match volumeTreeCreate env.tree s with
              | (s1, some .exist) => (s1, some .alreadyExists)
              | (s1, some (.internal msg)) => (s1, some (.internal msg))
              | (s1, none) =>
                match env.writeMetadata with
                | some e =>
                    ((volumeTreeDestroy env.tree.removeAllDestroy s1).1,
                     some (.internal (internalError "failed to store metadata for the volume"
                                        e.render)))
                | none =>
                    let vol : VolumeInfo := { BaseDirPath := baseDir, Volatile := volatile }
                    ({ s1 with metadata := some vol }, none)

/-! ## driver.go: Remove -/

/-- `Remove` from driver.go: unconditionally `os.RemoveAll` the volume's main
directory; the only failure is the RemoveAll failing (modelled as EBUSY when
an overlay is still mounted inside the tree, or an injected error). -/
def Remove (inj : Option GoError) (s : VolState) : VolState × Option String :=
  match (if s.overlayMounts != 0 then some GoError.busy else removeAllResult inj) with
  | some e =>
      (s, some (internalError "failed to RemoveAll volume main directory" e.render))
  | none =>
      ({ s with mainDirExists := false, metadata := none, upperContents := none,
                workdirExists := false, mountpointExists := false,
                activeMounts := none }, none)

/-! ## driver.go: Mount -/

/-- The distinct error values `Mount` can return, one constructor per error
site in driver.go's Mount. -/
inductive MountErr where
  | noSuchVolume
  | metadataInternal (cause : String)
  | lockedOpen (msg : String)
  | preMount (msg : String)
  | mountMissing
  | mountInternal (cause : String)
  | markerCritical (e : GoError) (mountpoint : String)
deriving DecidableEq, Repr

/-- The exact user-visible message of each Mount error (from driver.go). -/
def MountErr.render : MountErr → String
  | .noSuchVolume => "no such volume"
  | .metadataInternal cause => internalError "failed to retrieve the volume's metadata" cause
  | .lockedOpen msg => msg
  | .preMount msg => msg
  | .mountMissing =>
      "failed to mount volume: something is missing (does the base directory exist?)"
  | .mountInternal cause => internalError "failed to mount overlay" cause
  | .markerCritical e mountpoint =>
      "docker-on-top internal error: failed to create an active mount file: " ++ e.render ++
      ". The volume is now locked. Make sure that no other container is using the volume, " ++
      "then run `unmount " ++ mountpoint ++ "` to unlock it. Human interaction is required. " ++
      "Please, report this bug"

structure MountEnv where
  metadataRead : Option GoError := none
  flock : Option GoError := none
  readDirInj : Option GoError := none
  preMount : PreMountEnv := {}
  kernelMount : Option GoError := none
  createMarker : Option GoError := none
deriving Repr

/-- Result of a Mount: the new volume state, the kernel calls issued, and the
response (the mountpoint path) or an error. -/
structure MountOut where
  state : VolState
  calls : List KernelCall
  result : Except MountErr String
deriving Repr

/-- `os.Create` on the marker file: creates the file if absent, truncates it
if present (so the marker set gains `id` if it was missing). -/
def addMarker (l : List String) (id : String) : List String :=
  if l.contains id then l else l ++ [id]

/-- driver.go lines 222-256: create the marker file `activemounts/<ID>`.
Success (or an "exists" error, which is only a warning) yields a successful
response carrying the mountpoint; any other creation failure is the critical
"volume is now locked" error naming the mountpoint, with no rollback of the
kernel mount. -/
def mountCreateMarkerStep (inj : Option GoError) (s : VolState)
    (calls : List KernelCall) (mountpoint id : String) : MountOut :=
  match inj with
  | none =>
      ⟨{ s with activeMounts := some (addMarker (s.activeMounts.getD []) id) },
       calls, .ok mountpoint⟩
  | some .exist => ⟨s, calls, .ok mountpoint⟩
  | some e => ⟨s, calls, .error (.markerCritical e mountpoint)⟩

/-- `Mount` from driver.go: read metadata, lock activemounts/, peek it with
`ReadDir(1)`; when empty run `volumeTreePreMount` with
`discardUpper = Volatile` and issue the overlay kernel mount; when non-empty
issue no kernel call; in either case create the marker file and return the
mountpoint.

Note on the peek: the source branches on
`errors.Is(readDirErr, io.EOF)` and then `else if err == nil`, where `err`
still holds the (nil) result of `activemountsdir.Open`; hence every non-EOF
ReadDir outcome takes the "join existing activation" branch and the final
`internalError("failed to list activemounts/", err)` branch is unreachable.
We embed that behaviour as written. -/
def Mount (env : MountEnv) (root : String) (s : VolState) (name id : String) : MountOut :=
  match getVolumeInfo s with
  | .error .notExist => ⟨s, [], .error .noSuchVolume⟩
  | .error e => ⟨s, [], .error (.metadataInternal e.render)⟩
  | .ok thisVol =>
    match env.metadataRead with
    | some .notExist => ⟨s, [], .error .noSuchVolume⟩
    | some e => ⟨s, [], .error (.metadataInternal e.render)⟩
    | none =>
      let mountpoint := mountpointdir root name
      match lockedFileOpen s.activeMounts.isSome env.flock with
      | some msg => ⟨s, [], .error (.lockedOpen msg)⟩
      | none =>
        let readDirErr : Option GoError :=
          match env.readDirInj with
          | some e => some e
          | none => if (s.activeMounts.getD []).isEmpty then some .eof else none
        if readDirErr == some .eof then
          -- No files => no other containers are using the volume: fresh activation
          let lowerdir := thisVol.BaseDirPath
          let upperd := upperdir root name
          let workd := workdir root name
          match volumeTreePreMount env.preMount s thisVol.Volatile with
          | (s1, some msg) => ⟨s1, [], .error (.preMount msg)⟩
          | (s1, none) =>
            let options := "lowerdir=" ++ lowerdir ++ ",upperdir=" ++ upperd ++
                           ",workdir=" ++ workd
            let call := KernelCall.mount ("docker-on-top_" ++ name) mountpoint "overlay" 0
                          options
            match kernelMountResult s1.mountpointExists env.kernelMount with
            | some .notExist => ⟨s1, [call], .error .mountMissing⟩
            | some e => ⟨s1, [call], .error (.mountInternal e.render)⟩
            | none =>
              let s2 := { s1 with overlayMounts := s1.overlayMounts + 1 }
              mountCreateMarkerStep env.createMarker s2 [call] mountpoint id
        else
          -- Volume already mounted for some other container: join, no kernel call
          mountCreateMarkerStep env.createMarker s [] mountpoint id

/-! ## driver.go: Unmount -/

/-- The distinct error values `Unmount` can return, one constructor per error
site in driver.go's Unmount. -/
inductive UnmountErr where
  | lockedOpen (msg : String)
  | unmountFailed (e : GoError)
  | listActivemounts
  | removeMarkerCritical (e : GoError)
  | cleanup (msg : String)
deriving DecidableEq, Repr

/-- The exact user-visible message of each Unmount error (from driver.go).
`unmountFailed` is returned raw (`return err`); `listActivemounts` wraps the
(necessarily nil) Open error, as the source does. -/
def UnmountErr.render : UnmountErr → String
  | .lockedOpen msg => msg
  | .unmountFailed e => e.render
  | .listActivemounts => internalError "failed to list activemounts/" "%!w(<nil>)"
  | .removeMarkerCritical e =>
      "docker-on-top internal error: failed to remove the active mount file: " ++ e.render ++
      ". The volume is now considered used by a container that no longer exists. " ++
      "Human interaction is required: remove the file manually to fix the problem"
  | .cleanup msg => msg

structure UnmountEnv where
  flock : Option GoError := none
  readDirInj : Option GoError := none
  kernelUnmount : Option GoError := none
  postUnmount : PostUnmountEnv := {}
  removeMarker : Option GoError := none
deriving Repr

structure UnmountOut where
  state : VolState
  calls : List KernelCall
  result : Option UnmountErr
deriving DecidableEq, Repr

/-- driver.go lines 294-311: remove the marker file `activemounts/<ID>`.
Absence of the file is only a warning (the deferred cleanup error, if any, is
still the result); any other removal failure is the critical "ghost
container" error. -/
def unmountRemoveMarkerStep (inj : Option GoError) (s : VolState)
    (calls : List KernelCall) (id : String) (deferred : Option UnmountErr) : UnmountOut :=
  let ams := s.activeMounts.getD []
  match (if ams.contains id then inj else some GoError.notExist) with
  | some .notExist => ⟨s, calls, deferred⟩
  | some e => ⟨s, calls, some (.removeMarkerCritical e)⟩
  | none => ⟨{ s with activeMounts := some (ams.erase id) }, calls, deferred⟩

/-- `Unmount` from driver.go: lock activemounts/, peek it with `ReadDir(2)`;
if at most one entry is present, issue the kernel unmount (returning its
error unchanged on failure, leaving all state intact) and then run
`volumeTreePostUnmount`, deferring its error; if two entries are present, no
kernel call. Then always remove the marker file. An injected ReadDir failure
yields no entries and the "failed to list" internal error. -/
def Unmount (env : UnmountEnv) (root : String) (s : VolState) (name id : String) :
    UnmountOut :=
  match lockedFileOpen s.activeMounts.isSome env.flock with
  | some msg => ⟨s, [], some (.lockedOpen msg)⟩
  | none =>
    let entries : List String :=
      if env.readDirInj.isSome then [] else (s.activeMounts.getD []).take 2
    let readDirErr : Option GoError :=
      match env.readDirInj with
      | some e => some e
      | none => if (s.activeMounts.getD []).isEmpty then some .eof else none
    if entries.length == 1 || readDirErr == some .eof then
      -- Just one entry or directory is empty: unmount overlay and clean up
      let call := KernelCall.unmount (mountpointdir root name) 0
      match kernelUnmountResult s.overlayMounts env.kernelUnmount with
      | some e => ⟨s, [call], some (.unmountFailed e)⟩
      | none =>
        let s1 := { s with overlayMounts := s.overlayMounts - 1 }
        match volumeTreePostUnmount env.postUnmount s1 with
        | (s2, cleanupErr) =>
          unmountRemoveMarkerStep env.removeMarker s2 [call] id
            (cleanupErr.map .cleanup)
    else if readDirErr == none then
      -- Volume still mounted in some other container: no kernel call
      unmountRemoveMarkerStep env.removeMarker s [] id none
    else
      ⟨s, [], some .listActivemounts⟩

/-! ## The later driver iteration's Remove

The repository also contains a later iteration of driver.go whose `Remove`
defensively recovers a stale mountpoint before erasing the volume: try a
non-recursive `os.Remove(mountpoint)`; on EBUSY escalate to a forced,
detached kernel unmount (proceeding with a warning on success or on a
"not exist" race, failing otherwise); on "not exist" proceed; on any other
error fail; finally `os.RemoveAll` the main directory. -/

namespace V2

/-- The distinct error values of the later iteration's `Remove`, one
constructor per error site. -/
inductive RemoveErr where
  | unmountFailed (e : GoError)
  | removeMountpointFailed (e : GoError)
  | removeAllFailed (e : GoError)
deriving DecidableEq, Repr

/-- The exact user-visible message of each error. -/
def RemoveErr.render : RemoveErr → String
  | .unmountFailed e =>
      internalError "failed to unmount volume mountpoint when removing" e.render
  | .removeMountpointFailed e =>
      internalError "failed to remove the mountpoint directory of a seemingly unmounted volume"
        e.render
  | .removeAllFailed e =>
      internalError "failed to RemoveAll volume main directory" e.render

structure RemoveEnv where
  removeMountpoint : Option GoError := none
  forceUnmount : Option GoError := none
  removeAllMain : Option GoError := none
deriving Repr

structure RemoveOut where
  state : VolState
  calls : List KernelCall
  result : Option RemoveErr
deriving Repr

/-- `syscall.MNT_FORCE ||| syscall.MNT_DETACH` (0x1 ||| 0x2). -/
def mntForceDetach : Nat := 3

/-- The final `os.RemoveAll` of the volume's main directory (shared tail of
`Remove`): fails with EBUSY if an overlay is still mounted inside the tree,
otherwise per the injected error; on success the whole tree is gone. -/
def removeAllMainStep (inj : Option GoError) (s : VolState) (calls : List KernelCall) :
    RemoveOut :=
  match (if s.overlayMounts != 0 then some GoError.busy else removeAllResult inj) with
  | some e => ⟨s, calls, some (.removeAllFailed e)⟩
  | none =>
      ⟨{ s with mainDirExists := false, metadata := none, upperContents := none,
                workdirExists := false, mountpointExists := false,
                activeMounts := none }, calls, none⟩

/-- `Remove` of the later driver iteration. -/
def Remove (env : RemoveEnv) (root : String) (s : VolState) (name : String) : RemoveOut :=
  let mountpoint := mountpointdir root name
  match removeDirResult s.mountpointExists s.overlayMounts env.removeMountpoint with
  | some .busy =>
      -- A mount still lingers: attempt a forced, detached unmount
      let call := KernelCall.unmount mountpoint mntForceDetach
      match kernelUnmountResult s.overlayMounts env.forceUnmount with
      | none =>
          -- Unmounted (force+detach); log a warning and proceed
          removeAllMainStep env.removeAllMain
            { s with overlayMounts := s.overlayMounts - 1 } [call]
      | some .notExist =>
          -- "has literally just disappeared": log a warning and proceed
          removeAllMainStep env.removeAllMain s [call]
      | some e => ⟨s, [call], some (.unmountFailed e)⟩
  | some .notExist =>
      -- The default case: mountpoint does not exist
      removeAllMainStep env.removeAllMain s []
  | some e => ⟨s, [], some (.removeMountpointFailed e)⟩
  | none =>
      removeAllMainStep env.removeAllMain { s with mountpointExists := false } []

end V2

/-! ## Operation sequences on a single volume (for the mount-count invariant)

Mount and Unmount on one volume are serialised by the exclusive lock on its
activemounts/ directory, so a concurrent history is a sequence of completed
operations. We run the happy-path Mount/Unmount (the all-default
environment: every syscall that can succeed does). -/

/-- A serialised Mount or Unmount request, identified by its request ID. -/
inductive Op where
  | mount (id : String)
  | unmount (id : String)
deriving DecidableEq, Repr

/-- Apply one operation's state transition (happy-path environment). -/
def applyOp (root name : String) (s : VolState) : Op → VolState
  | .mount id => (Mount {} root s name id).state
  | .unmount id => (Unmount {} root s name id).state

/-- Run a sequence of operations from a state. -/
def runOps (root name : String) : VolState → List Op → VolState
  | s, [] => s
  | s, op :: rest => runOps root name (applyOp root name s op) rest

/-- Validity of a request sequence with respect to the set of live request
IDs: every Mount uses a fresh ID (IDs of distinct requests are distinct) and
every Unmount uses the ID of a previous Mount that has not been unmounted
yet. `live` lists the currently live IDs. -/
def validOps (live : List String) : List Op → Bool
  | [] => true
  | .mount id :: rest => !live.contains id && validOps (live ++ [id]) rest
  | .unmount id :: rest => live.contains id && validOps (live.erase id) rest

/-- The volume tree right after a successful Create: metadata, an empty
upper/ and an empty activemounts/ exist; no workdir/, no mountpoint/, no
overlay mounted. -/
def freshVolState (vol : VolumeInfo) : VolState :=
  { mainDirExists := true, metadata := some vol, upperContents := some [],
    workdirExists := false, mountpointExists := false, activeMounts := some [],
    overlayMounts := 0 }

/-- The per-volume state invariant between serialised operations: the three
always-present parts of the tree exist, and either no marker file exists, no
overlay is mounted and the mount-only directories are absent, or at least one
marker file exists, exactly one overlay is mounted and the mount-only
directories are present. -/
def VolInv (s : VolState) : Prop :=
  s.mainDirExists = true ∧ s.metadata.isSome = true ∧ s.upperContents.isSome = true ∧
  ∃ l, s.activeMounts = some l ∧
    ((l = [] ∧ s.overlayMounts = 0 ∧ s.mountpointExists = false ∧ s.workdirExists = false) ∨
     (l ≠ [] ∧ s.overlayMounts = 1 ∧ s.mountpointExists = true ∧ s.workdirExists = true))

/-- A volume state with no on-disk presence at all (the volume does not
exist). -/
def absentVolState : VolState :=
  { mainDirExists := false, metadata := none, upperContents := none,
    workdirExists := false, mountpointExists := false, activeMounts := none,
    overlayMounts := 0 }

/-! ## Frame lemmas -/

lemma volumeTreePostUnmount_upper (env : PostUnmountEnv) (s : VolState) :
    (volumeTreePostUnmount env s).1.upperContents = s.upperContents := by
  unfold volumeTreePostUnmount
  dsimp only
  split <;> rfl

lemma unmountRemoveMarkerStep_upper (inj : Option GoError) (s : VolState)
    (calls : List KernelCall) (id : String) (deferred : Option UnmountErr) :
    (unmountRemoveMarkerStep inj s calls id deferred).state.upperContents =
      s.upperContents := by
  unfold unmountRemoveMarkerStep
  dsimp only
  split <;> rfl

/-- `Unmount` never touches upper/: no branch of driver.go's Unmount or of
`volumeTreePostUnmount` operates on the upper directory. -/
lemma Unmount_upper (env : UnmountEnv) (root : String) (s : VolState) (name id : String) :
    (Unmount env root s name id).state.upperContents = s.upperContents := by
  unfold Unmount
  dsimp only
  repeat' split
  all_goals try rfl
  all_goals rw [unmountRemoveMarkerStep_upper]
  all_goals rw [volumeTreePostUnmount_upper]

/-! ## Theorems -/

/-- C9: for a name whose main directory does not exist under the data root,
`Remove` returns success (no error): removing a nonexistent volume is
silently idempotent, because `os.RemoveAll` treats absence as success. -/
theorem remove_nonexistent_is_ok (s : VolState)
    (hmain : s.mainDirExists = false) (hov : s.overlayMounts = 0) :
    (Remove none s).2 = none ∧ (Remove none s).1.mainDirExists = false := by
  simp [Remove, removeAllResult, hov]

theorem remove_nonexistent_is_ok_witness :
    absentVolState.mainDirExists = false ∧ absentVolState.overlayMounts = 0 ∧
    ((Remove none absentVolState).2 = none ∧
     (Remove none absentVolState).1.mainDirExists = false) :=
  ⟨by decide, by decide,
   remove_nonexistent_is_ok absentVolState (by decide) (by decide)⟩

/-- C10: on a name whose main directory does not exist, `Unmount` fails with
the internal error produced by the failed `os.Open` of the activemounts/
directory inside `lockedFile.Open`, while `Mount` on the same name returns
the "no such volume" error; the two messages differ, so the two operations
report nonexistence differently. -/
theorem unmount_and_mount_report_nonexistence_differently
    (root name id : String) (s : VolState)
    (hmeta : s.metadata = none) (hact : s.activeMounts = none) :
    (Unmount {} root s name id).result =
      some (.lockedOpen (internalError "failed to Open inside lockedFile"
        (GoError.render .notExist))) ∧
    (Mount {} root s name id).result = .error .noSuchVolume ∧
    MountErr.render .noSuchVolume = "no such volume" ∧
    UnmountErr.render (.lockedOpen (internalError "failed to Open inside lockedFile"
        (GoError.render .notExist))) ≠ "no such volume" := by
  refine ⟨?_, ?_, rfl, by decide⟩
  · simp [Unmount, lockedFileOpen, hact]
  · simp [Mount, getVolumeInfo, hmeta]

theorem unmount_and_mount_report_nonexistence_differently_witness :
    absentVolState.metadata = none ∧ absentVolState.activeMounts = none ∧
    ((Unmount {} "/var/lib/docker-on-top/" absentVolState "vol" "id").result =
      some (.lockedOpen (internalError "failed to Open inside lockedFile"
        (GoError.render .notExist))) ∧
     (Mount {} "/var/lib/docker-on-top/" absentVolState "vol" "id").result =
       .error .noSuchVolume ∧
     MountErr.render .noSuchVolume = "no such volume" ∧
     UnmountErr.render (.lockedOpen (internalError "failed to Open inside lockedFile"
        (GoError.render .notExist))) ≠ "no such volume") :=
  ⟨rfl, rfl,
   unmount_and_mount_report_nonexistence_differently "/var/lib/docker-on-top/" "vol" "id"
     absentVolState rfl rfl⟩

/-- C7: on a fresh activation (Mount with empty activemounts/), upper/ is
discarded and recreated empty exactly when the volume's Volatile flag is
true; with Volatile false it is unchanged; on a join of an existing
activation, and on any Unmount, upper/ is unchanged. -/
theorem upper_discarded_iff_volatile (root name id : String) (s : VolState)
    (vol : VolumeInfo) (hmeta : s.metadata = some vol) :
    (s.activeMounts = some [] →
      (Mount {} root s name id).state.upperContents =
        (if vol.Volatile then some [] else s.upperContents)) ∧
    (∀ a t, s.activeMounts = some (a :: t) →
      (Mount {} root s name id).state.upperContents = s.upperContents) ∧
    (∀ env : UnmountEnv, (Unmount env root s name id).state.upperContents =
      s.upperContents) := by
  refine ⟨fun hact => ?_, fun a t hact => ?_, fun env => ?_⟩
  · cases hvol : vol.Volatile <;>
      simp [Mount, getVolumeInfo, hmeta, lockedFileOpen, hact, volumeTreePreMount,
        mkdirResult, kernelMountResult, mountCreateMarkerStep, hvol, removeAllResult]
  · simp [Mount, getVolumeInfo, hmeta, lockedFileOpen, hact, mountCreateMarkerStep]
  · exact Unmount_upper env root s name id

theorem upper_discarded_iff_volatile_witness :
    (freshVolState ⟨"/tmp/x", true⟩).metadata = some ⟨"/tmp/x", true⟩ ∧
    ((freshVolState ⟨"/tmp/x", true⟩).activeMounts = some [] →
      (Mount {} "/r/" (freshVolState ⟨"/tmp/x", true⟩) "v" "c").state.upperContents =
        (if (true : Bool) then some [] else (freshVolState ⟨"/tmp/x", true⟩).upperContents)) :=
  ⟨rfl, fun h =>
    ((upper_discarded_iff_volatile "/r/" "v" "c" (freshVolState ⟨"/tmp/x", true⟩)
      ⟨"/tmp/x", true⟩ rfl).1 h)⟩

/-- C6: if during Mount the overlay kernel mount succeeds on a fresh
activation but creating the marker file then fails for a reason other than
"already exists", Mount returns the critical error, whose message names the
mountpoint and instructs the operator to unmount it manually
(`run \x60unmount <mountpoint>\x60`); the kernel mount is not rolled back:
the only kernel call issued is the mount, no unmount call is made, and the
overlay stays mounted. If instead the marker file already exists, Mount
returns success. -/
theorem mount_marker_failure_is_critical (root name id : String) (s : VolState)
    (vol : VolumeInfo) (e : GoError)
    (hmeta : s.metadata = some vol) (hact : s.activeMounts = some [])
    (he : e ≠ .exist) :
    (Mount { createMarker := some e } root s name id).result =
      .error (.markerCritical e (mountpointdir root name)) ∧
    (∃ src opts, (Mount { createMarker := some e } root s name id).calls =
      [KernelCall.mount src (mountpointdir root name) "overlay" 0 opts]) ∧
    (∀ target flags, KernelCall.unmount target flags ∉
      (Mount { createMarker := some e } root s name id).calls) ∧
    (Mount { createMarker := some e } root s name id).state.overlayMounts =
      s.overlayMounts + 1 ∧
    (∃ p q, MountErr.render (.markerCritical e (mountpointdir root name)) =
      p ++ mountpointdir root name ++ q) ∧
    (Mount { createMarker := some .exist } root s name id).result =
      .ok (mountpointdir root name) := by
  refine ⟨?_, ?_, ?_, ?_, ?_, ?_⟩
  · cases hvol : vol.Volatile <;>
      simp [Mount, getVolumeInfo, hmeta, lockedFileOpen, hact, volumeTreePreMount,
        mkdirResult, kernelMountResult, mountCreateMarkerStep, hvol, removeAllResult]
  · cases hvol : vol.Volatile <;>
      simp [Mount, getVolumeInfo, hmeta, lockedFileOpen, hact, volumeTreePreMount,
        mkdirResult, kernelMountResult, mountCreateMarkerStep, hvol, removeAllResult]
  · intro target flags
    cases hvol : vol.Volatile <;>
      simp [Mount, getVolumeInfo, hmeta, lockedFileOpen, hact, volumeTreePreMount,
        mkdirResult, kernelMountResult, mountCreateMarkerStep, hvol, removeAllResult]
  · cases hvol : vol.Volatile <;>
      simp [Mount, getVolumeInfo, hmeta, lockedFileOpen, hact, volumeTreePreMount,
        mkdirResult, kernelMountResult, mountCreateMarkerStep, hvol, removeAllResult]
  · refine ⟨"docker-on-top internal error: failed to create an active mount file: " ++
      e.render ++
      ". The volume is now locked. Make sure that no other container is using the volume, " ++
      "then run `unmount ",
      "` to unlock it. Human interaction is required. " ++ "Please, report this bug", ?_⟩
    simp [MountErr.render, String.append_assoc]
  · cases hvol : vol.Volatile <;>
      simp [Mount, getVolumeInfo, hmeta, lockedFileOpen, hact, volumeTreePreMount,
        mkdirResult, kernelMountResult, mountCreateMarkerStep, hvol, removeAllResult]

theorem mount_marker_failure_is_critical_witness :
    (freshVolState ⟨"/tmp/x", false⟩).metadata = some ⟨"/tmp/x", false⟩ ∧
    (freshVolState ⟨"/tmp/x", false⟩).activeMounts = some [] ∧
    GoError.other "disk error" ≠ GoError.exist ∧
    (Mount { createMarker := some (.other "disk error") } "/r/"
        (freshVolState ⟨"/tmp/x", false⟩) "v1" "c1").result =
      .error (.markerCritical (.other "disk error") (mountpointdir "/r/" "v1")) :=
  ⟨rfl, rfl, by decide,
   (mount_marker_failure_is_critical "/r/" "v1" "c1" (freshVolState ⟨"/tmp/x", false⟩)
     ⟨"/tmp/x", false⟩ (.other "disk error") rfl rfl (by decide)).1⟩

/-- C2: for an existing volume and a request ID, Mount peeks activemounts/.
If it is empty, Mount runs pre-mount with `discardUpper = Volatile`
(observable as: upper/ reset to empty exactly when Volatile, and mountpoint/
and workdir/ created) and issues exactly one overlay kernel mount with
options `lowerdir=<base>,upperdir=<upper>,workdir=<workdir>`, target
mountpoint/, source `docker-on-top_<name>`, fstype "overlay", flags 0. If it
is non-empty, no kernel call is made. In both cases the marker file
`activemounts/<ID>` is created and mountpoint/ is returned as the mount
path. -/
theorem mount_peeks_and_mounts_once (root name id : String) (s : VolState)
    (vol : VolumeInfo) (l : List String)
    (hmeta : s.metadata = some vol) (hact : s.activeMounts = some l) :
    (l = [] →
      (Mount {} root s name id).calls =
        [KernelCall.mount ("docker-on-top_" ++ name) (mountpointdir root name) "overlay" 0
          ("lowerdir=" ++ vol.BaseDirPath ++ ",upperdir=" ++ upperdir root name ++
           ",workdir=" ++ workdir root name)] ∧
      (Mount {} root s name id).state.upperContents =
        (if vol.Volatile then some [] else s.upperContents) ∧
      (Mount {} root s name id).state.mountpointExists = true ∧
      (Mount {} root s name id).state.workdirExists = true ∧
      (Mount {} root s name id).state.activeMounts = some [id] ∧
      (Mount {} root s name id).result = .ok (mountpointdir root name)) ∧
    (l ≠ [] →
      (Mount {} root s name id).calls = [] ∧
      (Mount {} root s name id).state.activeMounts = some (addMarker l id) ∧
      (Mount {} root s name id).result = .ok (mountpointdir root name)) := by
  constructor
  · intro hl
    subst hl
    cases hvol : vol.Volatile <;>
      simp [Mount, getVolumeInfo, hmeta, lockedFileOpen, hact, volumeTreePreMount,
        mkdirResult, kernelMountResult, mountCreateMarkerStep, hvol, removeAllResult,
        addMarker]
  · intro hl
    match l, hl with
    | a :: t, _ =>
      simp [Mount, getVolumeInfo, hmeta, lockedFileOpen, hact, mountCreateMarkerStep]

theorem mount_peeks_and_mounts_once_witness :
    (freshVolState ⟨"/tmp/x", false⟩).metadata = some ⟨"/tmp/x", false⟩ ∧
    (freshVolState ⟨"/tmp/x", false⟩).activeMounts = some [] ∧
    ((Mount {} "/r/" (freshVolState ⟨"/tmp/x", false⟩) "v1" "c1").calls =
      [KernelCall.mount ("docker-on-top_" ++ "v1") (mountpointdir "/r/" "v1") "overlay" 0
        ("lowerdir=" ++ "/tmp/x" ++ ",upperdir=" ++ upperdir "/r/" "v1" ++
         ",workdir=" ++ workdir "/r/" "v1")] ∧
     (Mount {} "/r/" (freshVolState ⟨"/tmp/x", false⟩) "v1" "c1").state.upperContents =
       (if (false : Bool) then some [] else (freshVolState ⟨"/tmp/x", false⟩).upperContents) ∧
     (Mount {} "/r/" (freshVolState ⟨"/tmp/x", false⟩) "v1" "c1").state.mountpointExists = true ∧
     (Mount {} "/r/" (freshVolState ⟨"/tmp/x", false⟩) "v1" "c1").state.workdirExists = true ∧
     (Mount {} "/r/" (freshVolState ⟨"/tmp/x", false⟩) "v1" "c1").state.activeMounts =
       some ["c1"] ∧
     (Mount {} "/r/" (freshVolState ⟨"/tmp/x", false⟩) "v1" "c1").result =
       .ok (mountpointdir "/r/" "v1")) :=
  ⟨rfl, rfl,
   (mount_peeks_and_mounts_once "/r/" "v1" "c1" (freshVolState ⟨"/tmp/x", false⟩)
     ⟨"/tmp/x", false⟩ [] rfl rfl).1 rfl⟩

/-- C3: Unmount peeks activemounts/ with a two-entry cap. With at most one
entry it issues the kernel unmount of mountpoint/ and then removes
mountpoint/ and workdir/; if the kernel unmount fails, the error is returned
and the state is left fully intact. With two or more entries no kernel call
is made. In every non-error path the marker `activemounts/<ID>` ends up
removed (`l.erase id`; when the marker was already absent this is a no-op
and only a warning). A marker-removal failure other than "not exist" is
surfaced as the critical error instructing the operator to remove the file
by hand. -/
theorem unmount_peeks_with_two_entry_cap (root name id : String) (s : VolState)
    (l : List String) (hact : s.activeMounts = some l) :
    (l.length ≤ 1 → s.overlayMounts = 1 → s.mountpointExists = true →
      (Unmount {} root s name id).calls = [KernelCall.unmount (mountpointdir root name) 0] ∧
      (Unmount {} root s name id).state.overlayMounts = 0 ∧
      (Unmount {} root s name id).state.mountpointExists = false ∧
      (Unmount {} root s name id).state.workdirExists = false ∧
      (Unmount {} root s name id).state.activeMounts = some (l.erase id) ∧
      (Unmount {} root s name id).result = none) ∧
    (∀ e : GoError, l.length ≤ 1 → s.overlayMounts ≠ 0 →
      (Unmount { kernelUnmount := some e } root s name id).calls =
        [KernelCall.unmount (mountpointdir root name) 0] ∧
      (Unmount { kernelUnmount := some e } root s name id).state = s ∧
      (Unmount { kernelUnmount := some e } root s name id).result =
        some (.unmountFailed e)) ∧
    (∀ a b t, l = a :: b :: t →
      (Unmount {} root s name id).calls = [] ∧
      (Unmount {} root s name id).state.activeMounts = some (l.erase id) ∧
      (Unmount {} root s name id).state.overlayMounts = s.overlayMounts ∧
      (Unmount {} root s name id).state.mountpointExists = s.mountpointExists ∧
      (Unmount {} root s name id).state.workdirExists = s.workdirExists ∧
      (Unmount {} root s name id).result = none) ∧
    (∀ e : GoError, e ≠ .notExist → l.contains id = true →
      (∀ a b t, l = a :: b :: t →
        (Unmount { removeMarker := some e } root s name id).result =
          some (.removeMarkerCritical e)) ∧
      (∃ p q, UnmountErr.render (.removeMarkerCritical e) =
        p ++ "remove the file manually" ++ q)) := by
  refine ⟨?_, ?_, ?_, ?_⟩
  · intro hlen hov hmp
    match l, hlen with
    | [], _ =>
        simp [Unmount, lockedFileOpen, hact, kernelUnmountResult, hov,
          volumeTreePostUnmount, removeDirResult, hmp, removeAllResult,
          unmountRemoveMarkerStep]
    | [x], _ =>
        by_cases hx : id = x
        · subst hx
          simp [Unmount, lockedFileOpen, hact, kernelUnmountResult, hov,
            volumeTreePostUnmount, removeDirResult, hmp, removeAllResult,
            unmountRemoveMarkerStep, List.erase]
        · have hx2 : ¬(x = id) := fun h => hx h.symm
          have hx3 : (x == id) = false := beq_eq_false_iff_ne.mpr hx2
          simp [Unmount, lockedFileOpen, hact, kernelUnmountResult, hov,
            volumeTreePostUnmount, removeDirResult, hmp, removeAllResult,
            unmountRemoveMarkerStep, List.erase, hx, hx2, hx3]
  · intro e hlen hov
    match l, hlen with
    | [], _ =>
        refine ⟨?_, ?_, ?_⟩ <;>
          simp [Unmount, lockedFileOpen, hact, kernelUnmountResult, hov]
    | [x], _ =>
        refine ⟨?_, ?_, ?_⟩ <;>
          simp [Unmount, lockedFileOpen, hact, kernelUnmountResult, hov]
  · rintro a b t rfl
    by_cases hx : id ∈ (a :: b :: t)
    · simp [Unmount, lockedFileOpen, hact, unmountRemoveMarkerStep, hx]
    · simp [Unmount, lockedFileOpen, hact, unmountRemoveMarkerStep, hx,
        List.erase_of_not_mem hx]
  · intro e he hid
    constructor
    · rintro a b t rfl
      cases e <;> simp_all [Unmount, lockedFileOpen, hact, unmountRemoveMarkerStep]
    · refine ⟨"docker-on-top internal error: failed to remove the active mount file: " ++
        e.render ++
        ". The volume is now considered used by a container that no longer exists. " ++
        "Human interaction is required: ", " to fix the problem", ?_⟩
      have hg : ("Human interaction is required: remove the file manually to fix the problem"
            : String) =
          "Human interaction is required: " ++ "remove the file manually" ++
            " to fix the problem" := by decide
      simp [UnmountErr.render, hg, String.append_assoc]

/-- A volume state with a single live activation by request "c1". -/
def oneMountedState : VolState :=
  { mainDirExists := true, metadata := some ⟨"/tmp/x", false⟩, upperContents := some [],
    workdirExists := true, mountpointExists := true, activeMounts := some ["c1"],
    overlayMounts := 1 }

theorem unmount_peeks_with_two_entry_cap_witness :
    oneMountedState.activeMounts = some ["c1"] ∧
    (["c1"] : List String).length ≤ 1 ∧ oneMountedState.overlayMounts = 1 ∧
    oneMountedState.mountpointExists = true ∧
    ((Unmount {} "/r/" oneMountedState "v1" "c1").calls =
      [KernelCall.unmount (mountpointdir "/r/" "v1") 0] ∧
     (Unmount {} "/r/" oneMountedState "v1" "c1").state.overlayMounts = 0 ∧
     (Unmount {} "/r/" oneMountedState "v1" "c1").state.mountpointExists = false ∧
     (Unmount {} "/r/" oneMountedState "v1" "c1").state.workdirExists = false ∧
     (Unmount {} "/r/" oneMountedState "v1" "c1").state.activeMounts =
       some ((["c1"] : List String).erase "c1") ∧
     (Unmount {} "/r/" oneMountedState "v1" "c1").result = none) :=
  ⟨rfl, by decide, rfl, rfl,
   (unmount_peeks_with_two_entry_cap "/r/" "v1" "c1" oneMountedState ["c1"] rfl).1
     (by decide) rfl rfl⟩

/-- C5: Create is atomic with respect to failure. For any request that
passes validation (well-formed name, only known options, an acceptable
`base`, a parsable `volatile`) on a not-yet-existing volume: if the creation
of an inner directory (upper/ or activemounts/) fails, or writing the
metadata record fails, the partially created tree is destroyed, an internal
error is returned, and the volume's main directory does not exist
afterwards; after a successful Create, metadata, upper/ and activemounts/
all exist under the (existing) main directory. -/
theorem create_atomic_on_failure (s : VolState) (request : CreateRequest)
    (base : String) (vola : Bool)
    (hname : volNameFormatMatch request.Name = true)
    (hopts : request.Options.find?
      (fun opt => !(opt.1 == "base" || opt.1 == "volatile")) = none)
    (hbase : request.Options.lookup "base" = some base)
    (habs : (base.length < 1 || base.front != '/') = false)
    (hsep : (containsRune base ',' || containsRune base ':') = false)
    (hvola : parseVolatile request.Options = some vola)
    (hmain : s.mainDirExists = false) :
    (∀ e : GoError,
      (Create { tree := { mkdirUpper := some e } } s request).1.mainDirExists = false ∧
      (∃ msg, (Create { tree := { mkdirUpper := some e } } s request).2 =
        some (.internal msg))) ∧
    (∀ e : GoError,
      (Create { tree := { mkdirActivemounts := some e } } s request).1.mainDirExists =
        false ∧
      (∃ msg, (Create { tree := { mkdirActivemounts := some e } } s request).2 =
        some (.internal msg))) ∧
    (∀ e : GoError,
      (Create { writeMetadata := some e } s request).1.mainDirExists = false ∧
      (∃ msg, (Create { writeMetadata := some e } s request).2 = some (.internal msg))) ∧
    ((Create {} s request).2 = none ∧
     (Create {} s request).1.mainDirExists = true ∧
     (Create {} s request).1.metadata = some ⟨base, vola⟩ ∧
     (Create {} s request).1.upperContents = some [] ∧
     (Create {} s request).1.activeMounts = some []) := by
  obtain ⟨hb1, hb2⟩ := Bool.or_eq_false_iff.mp habs
  obtain ⟨hc1, hc2⟩ := Bool.or_eq_false_iff.mp hsep
  have hlen : base.length ≠ 0 := by
    have := of_decide_eq_false hb1
    omega
  have hfront : base.front = '/' := by simpa using hb2
  refine ⟨fun e => ?_, fun e => ?_, fun e => ?_, ?_⟩ <;>
  · simp only [Create]
    rw [hopts, hbase, hvola]
    simp [hname, hlen, hfront, hc1, hc2, volumeTreeCreate,
      volumeTreeDestroy, mkdirResult, removeAllResult, hmain]

theorem create_atomic_on_failure_witness :
    volNameFormatMatch "v1" = true ∧
    (((Create { tree := { mkdirUpper := some (.other "EIO") } } absentVolState
        { Name := "v1", Options := [("base", "/tmp/x")] }).1.mainDirExists = false ∧
      (∃ msg, (Create { tree := { mkdirUpper := some (.other "EIO") } } absentVolState
        { Name := "v1", Options := [("base", "/tmp/x")] }).2 = some (.internal msg))) ∧
     ((Create {} absentVolState { Name := "v1", Options := [("base", "/tmp/x")] }).2 =
        none ∧
      (Create {} absentVolState
        { Name := "v1", Options := [("base", "/tmp/x")] }).1.mainDirExists = true ∧
      (Create {} absentVolState
        { Name := "v1", Options := [("base", "/tmp/x")] }).1.metadata =
        some ⟨"/tmp/x", false⟩ ∧
      (Create {} absentVolState
        { Name := "v1", Options := [("base", "/tmp/x")] }).1.upperContents = some [] ∧
      (Create {} absentVolState
        { Name := "v1", Options := [("base", "/tmp/x")] }).1.activeMounts = some [])) :=
  ⟨by decide,
   ((create_atomic_on_failure absentVolState
      { Name := "v1", Options := [("base", "/tmp/x")] } "/tmp/x" false
      (by decide) (by decide) (by decide) (by decide) (by decide) (by decide) rfl).1
      (.other "EIO")),
   ((create_atomic_on_failure absentVolState
      { Name := "v1", Options := [("base", "/tmp/x")] } "/tmp/x" false
      (by decide) (by decide) (by decide) (by decide) (by decide) (by decide) rfl).2.2.2)⟩

/-- The language of the regex `^[A-Za-z0-9][A-Za-z0-9_.-]*$`, stated
directly: a first character in the three alphanumeric ranges followed by
characters in those ranges or `_`, `.`, `-`. -/
def volNameRegexSpec (s : String) : Prop :=
  ∃ c cs, s.data = c :: cs ∧
    (('A' ≤ c ∧ c ≤ 'Z') ∨ ('a' ≤ c ∧ c ≤ 'z') ∨ ('0' ≤ c ∧ c ≤ '9')) ∧
    ∀ x ∈ cs, ('A' ≤ x ∧ x ≤ 'Z') ∨ ('a' ≤ x ∧ x ≤ 'z') ∨ ('0' ≤ x ∧ x ≤ '9') ∨
      x = '_' ∨ x = '.' ∨ x = '-'

lemma isVolNameStart_iff (c : Char) : isVolNameStart c = true ↔
    (('A' ≤ c ∧ c ≤ 'Z') ∨ ('a' ≤ c ∧ c ≤ 'z') ∨ ('0' ≤ c ∧ c ≤ '9')) := by
  simp [isVolNameStart, Char.isAlpha, Char.isUpper, Char.isLower, Char.isDigit,
    Char.le_def]
  tauto

lemma isVolNameRest_iff (x : Char) : isVolNameRest x = true ↔
    (('A' ≤ x ∧ x ≤ 'Z') ∨ ('a' ≤ x ∧ x ≤ 'z') ∨ ('0' ≤ x ∧ x ≤ '9') ∨
     x = '_' ∨ x = '.' ∨ x = '-') := by
  simp [isVolNameRest, Char.isAlpha, Char.isUpper, Char.isLower, Char.isDigit,
    Char.le_def]
  tauto

lemma volNameFormatMatch_iff (s : String) :
    volNameFormatMatch s = true ↔ volNameRegexSpec s := by
  unfold volNameFormatMatch volNameRegexSpec
  cases hd : s.data with
  | nil => simp
  | cons c cs =>
    constructor
    · intro h
      simp only [Bool.and_eq_true, List.all_eq_true] at h
      exact ⟨c, cs, rfl, (isVolNameStart_iff c).mp h.1,
        fun x hx => (isVolNameRest_iff x).mp (h.2 x hx)⟩
    · rintro ⟨c2, cs2, heq, h1, h2⟩
      injection heq with heq1 heq2
      subst heq1
      subst heq2
      simp only [Bool.and_eq_true, List.all_eq_true]
      exact ⟨(isVolNameStart_iff c).mpr h1,
        fun x hx => (isVolNameRest_iff x).mpr (h2 x hx)⟩

/-- C8: a Create request's volume name is accepted exactly when it matches
`^[A-Za-z0-9][A-Za-z0-9_.-]*$` (the matcher is proved equivalent to the
regex's language); a non-matching name containing `/` yields the dedicated
slash error, whose message hints at the `base` option, any other
non-matching name yields the illegal-characters error, and a matching name
can never produce either name error; `_x`, `a/b`, `x*y` are rejected
(`a/b` with the slash error) and `x.y-z_1` is accepted. -/
theorem create_validates_name_against_regex (env : CreateEnv) (s : VolState)
    (request : CreateRequest) :
    (volNameFormatMatch request.Name = true ↔ volNameRegexSpec request.Name) ∧
    (volNameFormatMatch request.Name = false →
      Create env s request =
        (s, some (if containsRune request.Name '/' then .nameSlash else .nameIllegal))) ∧
    (volNameFormatMatch request.Name = true →
      ∀ err, (Create env s request).2 = some err →
        err ≠ .nameSlash ∧ err ≠ .nameIllegal) ∧
    (volNameFormatMatch "_x" = false ∧ volNameFormatMatch "a/b" = false ∧
     containsRune "a/b" '/' = true ∧ volNameFormatMatch "x*y" = false ∧
     containsRune "x*y" '/' = false ∧ volNameFormatMatch "x.y-z_1" = true) ∧
    (∃ p q, CreateErr.render .nameSlash = p ++ "base" ++ q) := by
  refine ⟨volNameFormatMatch_iff request.Name, fun h => ?_, fun hm err herr => ?_,
    by decide, ?_⟩
  · unfold Create
    rw [if_pos (by simp [h])]
  · unfold Create at herr
    rw [if_neg (by simp [hm])] at herr
    repeat' split at herr
    all_goals first
      | (cases herr; exact ⟨by simp, by simp⟩)
      | simp_all
  · refine ⟨"volume name cannot contain slashes (for specifying host path use `-o ",
      "=/path/to/base/directory`)", ?_⟩
    decide

theorem create_validates_name_against_regex_witness :
    (volNameFormatMatch "a/b" = false →
      Create {} absentVolState { Name := "a/b", Options := [("base", "/tmp/x")] } =
        (absentVolState,
         some (if containsRune "a/b" '/' then .nameSlash else .nameIllegal))) ∧
    volNameFormatMatch "a/b" = false :=
  ⟨(create_validates_name_against_regex {} absentVolState
      { Name := "a/b", Options := [("base", "/tmp/x")] }).2.1, by decide⟩

/-! ## The mount-count invariant -/

lemma volInv_elim (s : VolState) (l : List String) (h : VolInv s)
    (hl : s.activeMounts = some l) :
    s.mainDirExists = true ∧ s.metadata.isSome = true ∧ s.upperContents.isSome = true ∧
    ((l = [] ∧ s.overlayMounts = 0 ∧ s.mountpointExists = false ∧ s.workdirExists = false) ∨
     (l ≠ [] ∧ s.overlayMounts = 1 ∧ s.mountpointExists = true ∧ s.workdirExists = true)) := by
  obtain ⟨h1, h2, h3, l', hl', hd⟩ := h
  rw [hl] at hl'
  injection hl' with he
  subst he
  exact ⟨h1, h2, h3, hd⟩

lemma mount_preserves_inv (root name id : String) (s : VolState) (l : List String)
    (hInv : VolInv s) (hl : s.activeMounts = some l) (hid : l.contains id = false) :
    VolInv (Mount {} root s name id).state ∧
    (Mount {} root s name id).state.activeMounts = some (l ++ [id]) := by
  obtain ⟨hmain, hmeta, hupper, hd⟩ := volInv_elim s l hInv hl
  obtain ⟨vol, hvol⟩ := Option.isSome_iff_exists.mp hmeta
  obtain ⟨u, hu⟩ := Option.isSome_iff_exists.mp hupper
  rcases hd with ⟨hl0, hov, hmp, hwd⟩ | ⟨hne, hov, hmp, hwd⟩
  · subst hl0
    have hstate : (Mount {} root s name id).state =
        { s with upperContents := if vol.Volatile then some [] else s.upperContents,
                 workdirExists := true, mountpointExists := true,
                 activeMounts := some [id], overlayMounts := s.overlayMounts + 1 } := by
      cases hvb : vol.Volatile <;>
        simp [Mount, getVolumeInfo, hvol, lockedFileOpen, hl, volumeTreePreMount,
          mkdirResult, kernelMountResult, mountCreateMarkerStep, addMarker, hvb,
          removeAllResult, hmp, hwd]
    rw [hstate]
    refine ⟨⟨hmain, by simp [hvol], ?_, [id], rfl,
      Or.inr ⟨by simp, by simp [hov], rfl, rfl⟩⟩, by simp⟩
    cases vol.Volatile <;> simp [hu]
  · have hlc : l.isEmpty = false := by
      cases l with
      | nil => exact absurd rfl hne
      | cons a t => rfl
    have hnotmem : id ∉ l := by simpa using hid
    have hstate : (Mount {} root s name id).state =
        { s with activeMounts := some (l ++ [id]) } := by
      simp [Mount, getVolumeInfo, hvol, lockedFileOpen, hl, hlc,
        mountCreateMarkerStep, addMarker, hnotmem]
    rw [hstate]
    refine ⟨⟨hmain, by simp [hvol], by simp [hu], l ++ [id], rfl,
      Or.inr ⟨by simp [hne], by simp [hov], by simp [hmp], by simp [hwd]⟩⟩, by simp⟩

lemma unmount_preserves_inv (root name id : String) (s : VolState) (l : List String)
    (hInv : VolInv s) (hl : s.activeMounts = some l) (hid : l.contains id = true) :
    VolInv (Unmount {} root s name id).state ∧
    (Unmount {} root s name id).state.activeMounts = some (l.erase id) := by
  obtain ⟨hmain, hmeta, hupper, hd⟩ := volInv_elim s l hInv hl
  obtain ⟨vol, hvol⟩ := Option.isSome_iff_exists.mp hmeta
  obtain ⟨u, hu⟩ := Option.isSome_iff_exists.mp hupper
  rcases hd with ⟨hl0, hov, hmp, hwd⟩ | ⟨hne, hov, hmp, hwd⟩
  · subst hl0
    simp at hid
  · match l, hne, hid with
    | [x], _, hid =>
      have hx2 : id = x := by simpa using hid
      rw [hx2]
      have hstate : (Unmount {} root s name x).state =
          { s with workdirExists := false, mountpointExists := false,
                   activeMounts := some [], overlayMounts := 0 } := by
        simp [Unmount, lockedFileOpen, hl, kernelUnmountResult, hov,
          volumeTreePostUnmount, removeDirResult, hmp, removeAllResult,
          unmountRemoveMarkerStep, List.erase]
      rw [hstate]
      exact ⟨⟨hmain, by simp [hvol], by simp [hu], [], rfl,
        Or.inl ⟨rfl, rfl, rfl, rfl⟩⟩, by simp [List.erase]⟩
    | x :: y :: t, _, hid =>
      have hstate : (Unmount {} root s name id).state =
          { s with activeMounts := some ((x :: y :: t).erase id) } := by
        have hmem : id ∈ x :: y :: t := by simpa using hid
        simp [Unmount, lockedFileOpen, hl, unmountRemoveMarkerStep, hmem]
      rw [hstate]
      have hmem : id ∈ x :: y :: t := by simpa using hid
      have hlen : ((x :: y :: t).erase id).length = (x :: y :: t).length - 1 :=
        List.length_erase_of_mem hmem
      have hne2 : (x :: y :: t).erase id ≠ [] := by
        intro hcon
        rw [hcon] at hlen
        simp at hlen
      exact ⟨⟨hmain, by simp [hvol], by simp [hu], (x :: y :: t).erase id, rfl,
        Or.inr ⟨hne2, by simp [hov], by simp [hmp], by simp [hwd]⟩⟩, by simp⟩

lemma runOps_preserves_inv (root name : String) :
    ∀ (ops : List Op) (s : VolState) (l : List String),
      VolInv s → s.activeMounts = some l → validOps l ops = true →
      VolInv (runOps root name s ops) := by
  intro ops
  induction ops with
  | nil =>
    intro s l h _ _
    simpa [runOps] using h
  | cons op rest ih =>
    intro s l hInv hl hv
    cases op with
    | mount id =>
      simp only [validOps, Bool.and_eq_true, Bool.not_eq_true'] at hv
      obtain ⟨hstep, hup⟩ := mount_preserves_inv root name id s l hInv hl hv.1
      exact ih _ (l ++ [id]) hstep hup hv.2
    | unmount id =>
      simp only [validOps, Bool.and_eq_true] at hv
      obtain ⟨hstep, hup⟩ := unmount_preserves_inv root name id s l hInv hl hv.1
      exact ih _ (l.erase id) hstep hup hv.2

lemma volInv_fresh (vol : VolumeInfo) : VolInv (freshVolState vol) :=
  ⟨rfl, rfl, rfl, [], rfl, Or.inl ⟨rfl, rfl, rfl, rfl⟩⟩

/-- C1: for every valid serialised sequence of Mount and Unmount operations
on one volume (each Mount uses a fresh request ID, each Unmount the ID of a
live activation), starting from a freshly created volume, after the sequence
completes the number of kernel overlay mounts equals 1 when activemounts/
holds at least one marker file and 0 otherwise: activemounts/ is non-empty
exactly when an overlay is mounted at mountpoint/. Since the sequence is
arbitrary, this holds after every completed operation of any valid history. -/
theorem activemounts_tracks_overlay_mounts (root name : String) (vol : VolumeInfo)
    (ops : List Op) (h : validOps [] ops = true) :
    ∃ l, (runOps root name (freshVolState vol) ops).activeMounts = some l ∧
      (runOps root name (freshVolState vol) ops).overlayMounts =
        (if 1 ≤ l.length then 1 else 0) ∧
      ((runOps root name (freshVolState vol) ops).mountpointExists =
        decide (1 ≤ l.length)) := by
  have hInv := runOps_preserves_inv root name ops (freshVolState vol) []
    (volInv_fresh vol) rfl h
  obtain ⟨_, _, _, l, hl, hd⟩ := hInv
  refine ⟨l, hl, ?_⟩
  rcases hd with ⟨rfl, hov, hmp, _⟩ | ⟨hne, hov, hmp, _⟩
  · simp [hov, hmp]
  · have hlen : 1 ≤ l.length := List.length_pos.mpr hne
    simp [hov, hmp, hlen]

theorem activemounts_tracks_overlay_mounts_witness :
    validOps [] [Op.mount "a", Op.mount "b", Op.unmount "a"] = true ∧
    (∃ l, (runOps "/r/" "v" (freshVolState ⟨"/tmp/x", false⟩)
        [Op.mount "a", Op.mount "b", Op.unmount "a"]).activeMounts = some l ∧
      (runOps "/r/" "v" (freshVolState ⟨"/tmp/x", false⟩)
        [Op.mount "a", Op.mount "b", Op.unmount "a"]).overlayMounts =
        (if 1 ≤ l.length then 1 else 0) ∧
      ((runOps "/r/" "v" (freshVolState ⟨"/tmp/x", false⟩)
        [Op.mount "a", Op.mount "b", Op.unmount "a"]).mountpointExists =
        decide (1 ≤ l.length))) :=
  ⟨by decide,
   activemounts_tracks_overlay_mounts "/r/" "v" ⟨"/tmp/x", false⟩
     [Op.mount "a", Op.mount "b", Op.unmount "a"] (by decide)⟩

/-- A volume whose overlay is still mounted on mountpoint/ although
activemounts/ is empty (the stale state Remove defensively recovers). -/
def staleMountedState : VolState :=
  { mainDirExists := true, metadata := some ⟨"/tmp/x", false⟩, upperContents := some [],
    workdirExists := true, mountpointExists := true, activeMounts := some [],
    overlayMounts := 1 }

/-- C4 counterexample: when the non-recursive removal of mountpoint/ reports
"busy" and the forced, detached unmount then fails with a "not exist" error,
the claim predicts an InternalError from the unmount with no further steps;
the code instead logs a warning and proceeds to the recursive removal of the
main directory (here failing on the still-mounted overlay), so the result is
the RemoveAll error, not the unmount error. -/
theorem remove_force_unmount_enoent_counterexample :
    (V2.Remove { forceUnmount := some .notExist } "/r/" staleMountedState "v").result ≠
      some (.unmountFailed .notExist) ∧
    (V2.Remove { forceUnmount := some .notExist } "/r/" staleMountedState "v").result =
      some (.removeAllFailed .busy) := by
  constructor
  · decide
  · rfl

/-- C4 (amended): Remove first attempts a non-recursive removal of
mountpoint/. On "not exist" it proceeds normally; on "busy" it attempts a
forced, detached kernel unmount (flags MNT_FORCE|MNT_DETACH), proceeding
with a warning if that succeeds, also proceeding (with a warning) if the
unmount fails with "not exist", and returning InternalError with no further
state changes if the unmount fails with any other error; on any other
removal error it returns InternalError; only then does it recursively remove
the main directory, after which (on success) the main directory does not
exist. -/
theorem remove_recovers_stale_mountpoint (root name : String) (s : VolState) :
    (s.mountpointExists = false → s.overlayMounts = 0 →
      (V2.Remove {} root s name).calls = [] ∧
      (V2.Remove {} root s name).result = none ∧
      (V2.Remove {} root s name).state.mainDirExists = false) ∧
    (s.mountpointExists = true → s.overlayMounts = 0 →
      (V2.Remove {} root s name).calls = [] ∧
      (V2.Remove {} root s name).result = none ∧
      (V2.Remove {} root s name).state.mainDirExists = false) ∧
    (s.mountpointExists = true → s.overlayMounts = 1 →
      (V2.Remove {} root s name).calls =
        [KernelCall.unmount (mountpointdir root name) V2.mntForceDetach] ∧
      (V2.Remove {} root s name).result = none ∧
      (V2.Remove {} root s name).state.mainDirExists = false) ∧
    (∀ e : GoError, e ≠ .notExist → s.mountpointExists = true → s.overlayMounts ≠ 0 →
      (V2.Remove { forceUnmount := some e } root s name).calls =
        [KernelCall.unmount (mountpointdir root name) V2.mntForceDetach] ∧
      (V2.Remove { forceUnmount := some e } root s name).state = s ∧
      (V2.Remove { forceUnmount := some e } root s name).result =
        some (.unmountFailed e)) ∧
    (s.mountpointExists = true → s.overlayMounts ≠ 0 →
      (V2.Remove { forceUnmount := some .notExist } root s name).state = s ∧
      (∃ e2, (V2.Remove { forceUnmount := some .notExist } root s name).result =
        some (.removeAllFailed e2))) ∧
    (∀ e : GoError, e ≠ .notExist → e ≠ .busy → s.mountpointExists = true →
      s.overlayMounts = 0 →
      (V2.Remove { removeMountpoint := some e } root s name).calls = [] ∧
      (V2.Remove { removeMountpoint := some e } root s name).state = s ∧
      (V2.Remove { removeMountpoint := some e } root s name).result =
        some (.removeMountpointFailed e)) := by
  refine ⟨fun hmp hov => ?_, fun hmp hov => ?_, fun hmp hov => ?_,
    fun e he hmp hov => ?_, fun hmp hov => ?_, fun e he1 he2 hmp hov => ?_⟩
  · simp [V2.Remove, removeDirResult, hmp, hov, V2.removeAllMainStep, removeAllResult]
  · simp [V2.Remove, removeDirResult, hmp, hov, V2.removeAllMainStep, removeAllResult]
  · simp [V2.Remove, removeDirResult, hmp, hov, V2.removeAllMainStep, removeAllResult,
      kernelUnmountResult]
  · cases e <;> simp_all [V2.Remove, removeDirResult, kernelUnmountResult]
  · simp [V2.Remove, removeDirResult, hmp, hov, kernelUnmountResult,
      V2.removeAllMainStep, removeAllResult]
  · cases e <;>
      simp_all [V2.Remove, removeDirResult, V2.removeAllMainStep, removeAllResult, hov]

theorem remove_recovers_stale_mountpoint_witness :
    staleMountedState.mountpointExists = true ∧ staleMountedState.overlayMounts = 1 ∧
    ((V2.Remove {} "/r/" staleMountedState "v").calls =
      [KernelCall.unmount (mountpointdir "/r/" "v") V2.mntForceDetach] ∧
     (V2.Remove {} "/r/" staleMountedState "v").result = none ∧
     (V2.Remove {} "/r/" staleMountedState "v").state.mainDirExists = false) :=
  ⟨rfl, rfl,
   (remove_recovers_stale_mountpoint "/r/" "v" staleMountedState).2.2.1 rfl rfl⟩

end DockerOnTop
